import Mathlib

/-!
Shallow embedding of the ClimBot weather pipeline (`src/bot.py`).

The embedded core is:
  * `get_weather` (bot.py lines 22-50): one HTTP fetch, payload
    classification, extraction of description/temp/humidity;
  * `create_weather_graph` (bot.py lines 53-62): bar-chart rendering to
    the fixed file "weather.png";
  * `weather` (bot.py lines 65-76): the command pipeline joining the
    argument words, invoking the fetch, and replying with either the
    error text or the rendered photo.

Modelling conventions:
  * Parsed JSON payloads are the inductive `Json`; numbers are rationals
    (the extraction code only copies numbers, never computes with them,
    so Python's int/float equality `200 == 200.0` is `(200 : ℚ) = 200`).
  * A Python value that may be `None` (the `LOCATION` environment
    variable, hence the `city` argument) is an `Option String`;
    f-string interpolation of `None` yields the string "None"
    (`pyShowOptStr`).
  * The transport is the input `HttpResult`: either `requests.get`
    raised a `RequestException` (connection refused / timeout / DNS),
    or a response with an HTTP status and a parsed JSON body arrived.
    `response.raise_for_status()` raises `HTTPError` (a
    `RequestException`) exactly when `400 ≤ status < 600`.
  * Python operations that can raise inside the `try` body are partial
    functions into `Option`; a `none` reaching the top level is the
    generic `except Exception` branch.  Totality of the Lean functions
    models "never raises to the caller".
  * The external libraries (matplotlib, the Telegram SDK) are modelled
    as total: `plt.*` calls construct a `Chart` value and `savefig`
    writes it to its path; replies are `Event`s.
-/

/-- A parsed JSON value as produced by `response.json()`.  Object
entries model a Python dict with distinct keys. -/
inductive Json where
  | null
  | bool (b : Bool)
  | num (q : ℚ)
  | str (s : String)
  | arr (elems : List Json)
  | obj (entries : List (String × Json))

/-- Python `dict.get` / successful `dict[k]` on the entry list of an
object: the value at key `k`, or `none` when the key is absent. -/
def jLookup : List (String × Json) → String → Option Json
  | [], _ => none
  | (k, v) :: rest, key => if k = key then some v else jLookup rest key

/-- Python subscript `data[k]` with a string key: defined only on
dicts, and only when the key is present (otherwise `TypeError`
resp. `KeyError` is raised, modelled as `none`). -/
def jGetItem : Json → String → Option Json
  | .obj entries, k => jLookup entries k
  | _, _ => none

/-- Python subscript `x[i]` with a non-negative integer index: list
indexing, or string indexing (yielding a one-character string);
anything else raises (`none`).  The source only uses index 0. -/
def jIdx : Json → Nat → Option Json
  | .arr l, i => l.get? i
  | .str s, i => (s.toList.get? i).map (fun c => Json.str (String.mk [c]))
  | _, _ => none

/-- Python `.capitalize()` is only available on `str` (an
`AttributeError` otherwise, modelled as `none`). -/
def jAsStr : Json → Option String
  | .str s => some s
  | _ => none

/-- Python `str.capitalize`: first character uppercased, all remaining
characters lowercased. -/
def pyCapitalize (s : String) : String :=
  match s.toList with
  | [] => ""
  | c :: rest => String.mk (c.toUpper :: rest.map Char.toLower)

/-- Python f-string interpolation of a value that is either a string
or `None` (`f"{city}"`): `None` renders as the string "None". -/
def pyShowOptStr : Option String → String
  | none => "None"
  | some s => s

/-- The comparison `data.get("cod") != 200` from bot.py line 30, with
Python equality semantics against the int literal 200: numbers compare
by value (so a float `200.0` equals `200`), Python booleans are ints
(`True == 1`, `False == 0`), and `None`, strings, lists and dicts are
never equal to the int 200. -/
def pyNe200 : Option Json → Bool
  | some (.num q) => decide (q ≠ 200)
  | some (.bool b) => decide ((if b then (1 : ℚ) else 0) ≠ 200)
  | _ => true

/-- The dict `weather_info` built by `get_weather` on success: exactly
the three keys `description`, `temperature`, `humidity`.  Temperature
and humidity are copied verbatim from the payload, whatever JSON value
they hold. -/
structure WeatherInfo where
  description : String
  temperature : Json
  humidity : Json

/-- The Python value returned by `get_weather`: either the
`weather_info` dict or an error-message string. -/
inductive FetchOutcome where
  | info (w : WeatherInfo)
  | msg (s : String)

/-- bot.py line 47: the network-failure message. -/
def networkMsg : String :=
  "Unable to fetch weather due to a network issue. Please try again later."

/-- bot.py line 50: the unexpected-failure message. -/
def unexpectedMsg : String :=
  "An unexpected error occurred. Please try again later."

/-- bot.py line 32: the invalid-location message, with the f-string
rendering of `city` spliced in. -/
def invalidMsg (city : String) : String :=
  "Unable to fetch weather for " ++ city ++
    ". Please check the city name and try again."

/-- The transport result of `requests.get` at bot.py line 26: either a
`RequestException` was raised (connection refused, timeout, DNS
failure), or a response arrived carrying an HTTP status code and a
parsed JSON body. -/
inductive HttpResult where
  | exn
  | resp (status : Nat) (body : Json)

/-- `response.raise_for_status()` raises `HTTPError` exactly for
client-error and server-error status codes. -/
def raiseForStatus (status : Nat) : Bool :=
  decide (400 ≤ status) && decide (status < 600)

/-- bot.py lines 34-42: the extraction
`data["weather"][0]["description"].capitalize()`, `data["main"]["temp"]`,
`data["main"]["humidity"]` building the `weather_info` dict; `none`
means some step raised (missing key, short list, non-string
description, non-dict where a dict is subscripted). -/
def extract_weather (data : Json) : Option WeatherInfo :=
  (jGetItem data "weather").bind fun w =>
  (jIdx w 0).bind fun w0 =>
  (jGetItem w0 "description").bind fun d =>
  (jAsStr d).bind fun ds =>
  (jGetItem data "main").bind fun m =>
  (jGetItem m "temp").bind fun t =>
  (jGetItem m "humidity").bind fun h =>
  some ⟨pyCapitalize ds, t, h⟩

/-- bot.py lines 22-50, `get_weather(city)` as a function of the city
argument (a string or `None`) and the transport result.  A raised
`RequestException` (from `requests.get` or `raise_for_status`) returns
the network message; on a delivered non-error response, a payload whose
`cod` differs from 200 returns the invalid-location message; otherwise
the three fields are extracted, any exception on the way (including
`data.get` on a non-dict body) returning the unexpected message. -/
def get_weather (city : Option String) (t : HttpResult) : FetchOutcome :=
  match t with
  | .exn => .msg networkMsg
  | .resp status body =>
    if raiseForStatus status then .msg networkMsg
    else
      match body with
      | .obj entries =>
        if pyNe200 (jLookup entries "cod") then
          .msg (invalidMsg (pyShowOptStr city))
        else
          match extract_weather (.obj entries) with
          | some w => .info w
          | none => .msg unexpectedMsg
      | _ => .msg unexpectedMsg

/-- The matplotlib figure built by `create_weather_graph` (bot.py lines
53-62): bar labels, bar values, bar colors, title and y-axis label.
The matplotlib calls themselves are modelled as total constructors of
this value. -/
structure Chart where
  labels : List String
  values : List Json
  colors : List String
  title : String
  ylabel : String

/-- The fixed chart file path of `plt.savefig("weather.png")`. -/
def weatherPng : String := "weather.png"

/-- bot.py lines 53-62, `create_weather_graph(city, weather_data)`:
reads `weather_data["temperature"]` and `weather_data["humidity"]`
(always present on the three-key dict), builds the two-bar chart, and
performs one write: `plt.savefig` to the fixed path.  The returned pair
is (path written, chart content). -/
def create_weather_graph (city : Option String) (w : WeatherInfo) : String × Chart :=
  (weatherPng,
   { labels := ["Temperature", "Humidity"],
     values := [w.temperature, w.humidity],
     colors := ["skyblue", "lightgreen"],
     title := "Weather in " ++ pyShowOptStr city,
     ylabel := "Values" })

/-- Python truthiness of the value returned by `get_weather`
(`not weather_data` at bot.py line 69): the `weather_info` dict has
three keys, hence is nonempty and truthy; a string is truthy exactly
when it is nonempty. -/
def pyTruthy : FetchOutcome → Bool
  | .info _ => true
  | .msg s => !(s == "")

/-- `isinstance(weather_data, str)` at bot.py line 69. -/
def pyIsStr : FetchOutcome → Bool
  | .info _ => false
  | .msg _ => true

/-- The argument passed to `reply_text` on the error branch
(bot.py line 70).  The `.info` case is never reached: the dict is
truthy and not a `str`, so the branch condition rules it out. -/
def pyReplyText : FetchOutcome → String
  | .msg s => s
  | .info _ => ""

/-- bot.py line 66: `" ".join(context.args) if context.args else
DEFAULT_LOCATION`.  An empty argument list is falsy, so the default
location (possibly `None`) is substituted. -/
def resolve_city (args : List String) (defaultLoc : Option String) : Option String :=
  if args.isEmpty then defaultLoc else some (String.intercalate " " args)

/-- bot.py line 25: the request URL f-string.  `city` and the API key
are interpolated with Python `str` conversion (`None` renders as
"None"). -/
def request_url (city : Option String) (apiKey : Option String) : String :=
  "http://api.openweathermap.org/data/2.5/weather?q=" ++ pyShowOptStr city ++
    "&appid=" ++ pyShowOptStr apiKey ++ "&units=metric"

/-- The value of the `q` (location) query parameter embedded in
`request_url`: exactly the f-string rendering of `city`. -/
def location_query_param (city : Option String) : String := pyShowOptStr city

/-- An observable action of the `weather` command handler: the
`plt.savefig` write performed inside `create_weather_graph`, a
`reply_text` call, or a `send_photo` call reading the given path. -/
inductive Event where
  | renderChart (path : String) (c : Chart)
  | sendText (s : String)
  | sendPhoto (path : String)

/-- Whether an event is a reply sent back to the chat. -/
def Event.isReply : Event → Bool
  | .sendText _ => true
  | .sendPhoto _ => true
  | .renderChart _ _ => false

/-- bot.py lines 65-76, the `weather` command handler as the sequence
of its observable actions, as a function of the raw command arguments,
the configured default location (`None` when the `LOCATION` environment
variable is unset) and the transport result of the single fetch:
resolve the city, fetch, then either reply with the error text (line
70) or render the chart and send the photo at the fixed path (lines
74-76).  The final `.msg` branch is not reachable: a string fails the
`else` condition because `pyIsStr` holds of it. -/
def weather_handler (args : List String) (defaultLoc : Option String)
    (t : HttpResult) : List Event :=
  let city := resolve_city args defaultLoc
  let wd := get_weather city t
  if !pyTruthy wd || pyIsStr wd then
    [Event.sendText (pyReplyText wd)]
  else
    match wd with
    | .info w =>
      [Event.renderChart (create_weather_graph city w).1 (create_weather_graph city w).2,
       Event.sendPhoto weatherPng]
    | .msg s => [Event.sendText s]

/-- The local file system visible to the renderer: contents (charts)
indexed by path. -/
def FileStore : Type := String → Option Chart

/-- Effect of a file write: the path now holds the new content, all
other paths are untouched. -/
def writeFile (fs : FileStore) (path : String) (c : Chart) : FileStore :=
  fun p => if p = path then some c else fs p

/-- The file-system effect of one `create_weather_graph` call: the
single `plt.savefig` write it performs. -/
def render_effect (fs : FileStore) (city : Option String) (w : WeatherInfo) : FileStore :=
  writeFile fs (create_weather_graph city w).1 (create_weather_graph city w).2

/-- The provider success payload of end-to-end scenario 1:
`{cod:200, weather:[{description:"clear sky"}], main:{temp:18.5,
humidity:60}}`. -/
def parisBody : Json :=
  .obj [("cod", .num 200),
        ("weather", .arr [.obj [("description", .str "clear sky")]]),
        ("main", .obj [("temp", .num (37/2)), ("humidity", .num 60)])]

/-- The provider error payload of end-to-end scenario 2:
`{cod:404, message:"city not found"}`. -/
def cod404Body : Json :=
  .obj [("cod", .num 404), ("message", .str "city not found")]

/-- A success payload with `main.temp` missing (malformed). -/
def noTempBody : Json :=
  .obj [("cod", .num 200),
        ("weather", .arr [.obj [("description", .str "clear sky")]]),
        ("main", .obj [("humidity", .num 60)])]

/-- A payload that is well-formed except that `cod` holds the string
"200" rather than the number 200. -/
def strCodBody : Json :=
  .obj [("cod", .str "200"),
        ("weather", .arr [.obj [("description", .str "clear sky")]]),
        ("main", .obj [("temp", .num (37/2)), ("humidity", .num 60)])]

lemma raiseForStatus_false_of_2xx (status : Nat) (h : status < 400) :
    raiseForStatus status = false := by
  simp only [raiseForStatus, Bool.and_eq_false_iff, decide_eq_false_iff_not]
  omega

lemma networkMsg_ne_empty : networkMsg ≠ "" := by decide

lemma unexpectedMsg_ne_empty : unexpectedMsg ≠ "" := by decide

lemma invalidMsg_ne_empty (c : String) : invalidMsg c ≠ "" := by
  intro h
  have h2 := congrArg String.length h
  rw [invalidMsg, String.length_append, String.length_append] at h2
  have ha : ("Unable to fetch weather for " : String).length = 28 := rfl
  have hb : (". Please check the city name and try again." : String).length = 43 := rfl
  have hc : ("" : String).length = 0 := rfl
  omega

/-- Claim C1: on a 2xx transport response whose payload has `cod = 200`,
a non-empty `weather` list whose first element carries a string
`description`, and a `main` object with `temp` and `humidity` fields,
`get_weather` returns the success record whose description is the
payload description capitalized and whose temperature and humidity are
the payload values verbatim. -/
theorem fetch_success_extracts_payload_fields
    (city : Option String) (status : Nat)
    (entries w0entries mentries : List (String × Json))
    (wrest : List Json) (desc : String) (tj hj : Json)
    (h2a : 200 ≤ status) (h2b : status < 300)
    (hcod : jLookup entries "cod" = some (.num 200))
    (hw : jLookup entries "weather" = some (.arr (.obj w0entries :: wrest)))
    (hd : jLookup w0entries "description" = some (.str desc))
    (hm : jLookup entries "main" = some (.obj mentries))
    (ht : jLookup mentries "temp" = some tj)
    (hh : jLookup mentries "humidity" = some hj) :
    get_weather city (.resp status (.obj entries)) =
      .info ⟨pyCapitalize desc, tj, hj⟩ := by
  have hrs := raiseForStatus_false_of_2xx status (by omega)
  simp [get_weather, hrs, hcod, pyNe200, extract_weather, jGetItem, hw, jIdx,
    hd, jAsStr, hm, ht, hh]

/-- Witness for C1, end-to-end scenario 1's payload: `/weather Paris`
with `{cod:200, weather:[{description:"clear sky"}], main:{temp:18.5,
humidity:60}}` produces the success record
`{description:"Clear sky", temperature:18.5, humidity:60}`. -/
theorem fetch_success_extracts_payload_fields_witness :
    get_weather (some "Paris") (.resp 200 parisBody) =
      .info ⟨"Clear sky", .num (37/2), .num 60⟩ := by
  have h := fetch_success_extracts_payload_fields (some "Paris") 200
    [("cod", .num 200),
     ("weather", .arr [.obj [("description", .str "clear sky")]]),
     ("main", .obj [("temp", .num (37/2)), ("humidity", .num 60)])]
    [("description", .str "clear sky")]
    [("temp", .num (37/2)), ("humidity", .num 60)]
    [] "clear sky" (.num (37/2)) (.num 60)
    (by omega) (by omega) rfl rfl rfl rfl rfl rfl
  rw [show ("Clear sky" : String) = pyCapitalize "clear sky" from rfl]
  exact h

/-- Claim C2: on a 2xx transport response whose payload `cod` differs
from the success code 200 (under Python equality), `get_weather`
returns the invalid-location message, which contains the queried
location string between its fixed head and tail. -/
theorem fetch_bad_cod_invalid_location
    (c : String) (status : Nat) (entries : List (String × Json))
    (h2a : 200 ≤ status) (h2b : status < 300)
    (hcod : pyNe200 (jLookup entries "cod") = true) :
    get_weather (some c) (.resp status (.obj entries)) =
      .msg ("Unable to fetch weather for " ++ c ++
        ". Please check the city name and try again.") := by
  have hrs := raiseForStatus_false_of_2xx status (by omega)
  simp [get_weather, hrs, hcod, invalidMsg, pyShowOptStr]

/-- Witness for C2, end-to-end scenario 2: `/weather Nowhereistan`
with provider payload `{cod:404, message:"city not found"}` yields the
exact invalid-location reply text. -/
theorem fetch_bad_cod_invalid_location_witness :
    get_weather (some "Nowhereistan") (.resp 200 cod404Body) =
      .msg "Unable to fetch weather for Nowhereistan. Please check the city name and try again." := by
  have h := fetch_bad_cod_invalid_location "Nowhereistan" 200
    [("cod", .num 404), ("message", .str "city not found")]
    (by omega) (by omega) (by decide)
  rw [show ("Unable to fetch weather for Nowhereistan. Please check the city name and try again." : String)
      = "Unable to fetch weather for " ++ "Nowhereistan" ++
        ". Please check the city name and try again." from rfl]
  exact h

/-- Claim C3 (amended): a raised `RequestException` — connection
refused, timeout, DNS failure — or a delivered response with a 4xx/5xx
status yields the network-failure message; the result does not depend
on any payload content.  (The original claim said "non-2xx" status,
but `raise_for_status` only raises for 4xx/5xx: a 3xx response is
processed as a normal payload.) -/
theorem fetch_transport_failure_network_msg
    (city : Option String) (t : HttpResult)
    (h : t = .exn ∨ ∃ s b, t = .resp s b ∧ 400 ≤ s ∧ s < 600) :
    get_weather city t = .msg networkMsg := by
  rcases h with h | ⟨s, b, rfl, hs1, hs2⟩
  · rw [h]; rfl
  · have hrs : raiseForStatus s = true := by
      simp only [raiseForStatus, Bool.and_eq_true, decide_eq_true_eq]
      omega
    simp [get_weather, hrs]

/-- Witness for C3 (amended): a 500 response yields the network
message, whatever the body holds. -/
theorem fetch_transport_failure_network_msg_witness :
    get_weather (some "Paris") (.resp 500 parisBody) = .msg networkMsg :=
  fetch_transport_failure_network_msg (some "Paris") (.resp 500 parisBody)
    (Or.inr ⟨500, parisBody, rfl, by omega, by omega⟩)

/-- Counterexample to C3 as stated: a 304 response is not 2xx, yet
`get_weather` does not return a network failure — `raise_for_status`
only raises for 4xx/5xx, so the 304 payload is processed and, being a
well-formed success payload, yields the success record. -/
theorem fetch_threexx_processes_payload :
    ¬ (200 ≤ 304 ∧ 304 < 300) ∧
    get_weather (some "Paris") (.resp 304 parisBody) ≠ .msg networkMsg := by
  constructor
  · omega
  · intro h
    have h0 : get_weather (some "Paris") (.resp 304 parisBody) =
        .info ⟨pyCapitalize "clear sky", .num (37/2), .num 60⟩ := rfl
    rw [h0] at h
    exact FetchOutcome.noConfusion h

/-- Claim C4: on a 2xx transport response whose payload passes the
`cod` check but fails extraction (a missing or malformed field),
`get_weather` returns the unexpected-failure message; the embedding is
total, so no exception reaches the caller. -/
theorem fetch_malformed_payload_unexpected_msg
    (city : Option String) (status : Nat) (entries : List (String × Json))
    (h2a : 200 ≤ status) (h2b : status < 300)
    (hcod : pyNe200 (jLookup entries "cod") = false)
    (hbad : extract_weather (.obj entries) = none) :
    get_weather city (.resp status (.obj entries)) = .msg unexpectedMsg := by
  have hrs := raiseForStatus_false_of_2xx status (by omega)
  simp [get_weather, hrs, hcod, hbad]

/-- Witness for C4: a payload with `cod = 200` but no `main.temp`
field yields the unexpected-failure message. -/
theorem fetch_malformed_payload_unexpected_msg_witness :
    get_weather (some "Paris") (.resp 200 noTempBody) = .msg unexpectedMsg :=
  fetch_malformed_payload_unexpected_msg (some "Paris") 200
    [("cod", .num 200),
     ("weather", .arr [.obj [("description", .str "clear sky")]]),
     ("main", .obj [("humidity", .num 60)])]
    (by omega) (by omega) (by decide) rfl

/-- Claim C10: the `cod` check is Python `!=` against the int 200, so
a `cod` holding the string "200", or an absent `cod` field, takes the
invalid-location branch even when everything else in the payload is a
well-formed success payload. -/
theorem fetch_cod_strict_equality
    (city : Option String) (status : Nat) (entries : List (String × Json))
    (h2a : 200 ≤ status) (h2b : status < 300)
    (hcod : jLookup entries "cod" = some (.str "200") ∨
            jLookup entries "cod" = none) :
    get_weather city (.resp status (.obj entries)) =
      .msg (invalidMsg (pyShowOptStr city)) := by
  have hrs := raiseForStatus_false_of_2xx status (by omega)
  have hne : pyNe200 (jLookup entries "cod") = true := by
    rcases hcod with h | h <;> rw [h] <;> rfl
  simp [get_weather, hrs, hne]

/-- Witness for C10: the payload that is well-formed except that `cod`
is the string "200" yields the invalid-location reply, not the success
record. -/
theorem fetch_cod_strict_equality_witness :
    get_weather (some "Paris") (.resp 200 strCodBody) =
      .msg (invalidMsg "Paris") :=
  fetch_cod_strict_equality (some "Paris") 200
    [("cod", .str "200"),
     ("weather", .arr [.obj [("description", .str "clear sky")]]),
     ("main", .obj [("temp", .num (37/2)), ("humidity", .num 60)])]
    (by omega) (by omega) (Or.inl rfl)

lemma get_weather_shape (city : Option String) (t : HttpResult) :
    (∃ w, get_weather city t = .info w) ∨
    get_weather city t = .msg networkMsg ∨
    get_weather city t = .msg unexpectedMsg ∨
    get_weather city t = .msg (invalidMsg (pyShowOptStr city)) := by
  cases t with
  | exn => exact Or.inr (Or.inl rfl)
  | resp status body =>
    by_cases hrs : raiseForStatus status = true
    · right; left; simp [get_weather, hrs]
    · rw [Bool.not_eq_true] at hrs
      cases body with
      | obj entries =>
        by_cases hcod : pyNe200 (jLookup entries "cod") = true
        · right; right; right; simp [get_weather, hrs, hcod]
        · rw [Bool.not_eq_true] at hcod
          cases hex : extract_weather (.obj entries) with
          | some w => exact Or.inl ⟨w, by simp [get_weather, hrs, hcod, hex]⟩
          | none => right; right; left; simp [get_weather, hrs, hcod, hex]
      | null => right; right; left; simp [get_weather, hrs]
      | bool b => right; right; left; simp [get_weather, hrs]
      | num q => right; right; left; simp [get_weather, hrs]
      | str s => right; right; left; simp [get_weather, hrs]
      | arr l => right; right; left; simp [get_weather, hrs]

lemma msg_truthy_and_str (s : String) (hne : s ≠ "") :
    pyTruthy (.msg s) = true ∧ pyIsStr (.msg s) = true := by
  simp [pyTruthy, pyIsStr, hne]

/-- Claim C9: every value `get_weather` can return is either the
three-field success record or one of the three error messages; every
outcome is truthy; and the pipeline's branch test (falsy-or-string)
holds exactly of the message outcomes. -/
theorem fetch_outcome_tagged_classification (city : Option String) (t : HttpResult) :
    ((∃ w, get_weather city t = .info w) ∨
     (∃ s, get_weather city t = .msg s ∧
        (s = networkMsg ∨ s = unexpectedMsg ∨ s = invalidMsg (pyShowOptStr city)))) ∧
    pyTruthy (get_weather city t) = true ∧
    ((!pyTruthy (get_weather city t) || pyIsStr (get_weather city t)) = true ↔
      ∃ s, get_weather city t = .msg s) := by
  rcases get_weather_shape city t with ⟨w, hw⟩ | h1 | h1 | h1
  · rw [hw]
    refine ⟨Or.inl ⟨w, rfl⟩, rfl, ?_⟩
    simp [pyTruthy, pyIsStr]
  · rw [h1]
    obtain ⟨ht, hs⟩ := msg_truthy_and_str networkMsg networkMsg_ne_empty
    exact ⟨Or.inr ⟨networkMsg, rfl, Or.inl rfl⟩, ht,
      by simp [ht, hs]⟩
  · rw [h1]
    obtain ⟨ht, hs⟩ := msg_truthy_and_str unexpectedMsg unexpectedMsg_ne_empty
    exact ⟨Or.inr ⟨unexpectedMsg, rfl, Or.inr (Or.inl rfl)⟩, ht,
      by simp [ht, hs]⟩
  · rw [h1]
    obtain ⟨ht, hs⟩ :=
      msg_truthy_and_str _ (invalidMsg_ne_empty (pyShowOptStr city))
    exact ⟨Or.inr ⟨_, rfl, Or.inr (Or.inr rfl)⟩, ht,
      by simp [ht, hs]⟩

lemma weather_handler_of_msg (args : List String) (d : Option String)
    (t : HttpResult) (s : String)
    (h : get_weather (resolve_city args d) t = .msg s) :
    weather_handler args d t = [Event.sendText s] := by
  simp [weather_handler, h, pyIsStr, pyReplyText]

lemma weather_handler_of_info (args : List String) (d : Option String)
    (t : HttpResult) (w : WeatherInfo)
    (h : get_weather (resolve_city args d) t = .info w) :
    weather_handler args d t =
      [Event.renderChart weatherPng (create_weather_graph (resolve_city args d) w).2,
       Event.sendPhoto weatherPng] := by
  simp [weather_handler, h, pyTruthy, pyIsStr, create_weather_graph]

/-- Claim C6: every invocation of the `weather` handler produces
exactly one reply — either the error text alone (no chart rendered, no
photo sent) or the rendered chart followed by the photo reply — and the
handler is total, so nothing propagates past the pipeline boundary. -/
theorem pipeline_exactly_one_reply (args : List String) (d : Option String)
    (t : HttpResult) :
    (weather_handler args d t).countP Event.isReply = 1 ∧
    ((∃ s, weather_handler args d t = [Event.sendText s] ∧
        (s = networkMsg ∨ s = unexpectedMsg ∨
         s = invalidMsg (pyShowOptStr (resolve_city args d)))) ∨
     (∃ c, weather_handler args d t =
        [Event.renderChart weatherPng c, Event.sendPhoto weatherPng])) := by
  rcases get_weather_shape (resolve_city args d) t with ⟨w, hw⟩ | h1 | h1 | h1
  · have hh := weather_handler_of_info args d t w hw
    rw [hh]
    exact ⟨rfl, Or.inr ⟨_, rfl⟩⟩
  · have hh := weather_handler_of_msg args d t _ h1
    rw [hh]
    exact ⟨rfl, Or.inl ⟨networkMsg, rfl, Or.inl rfl⟩⟩
  · have hh := weather_handler_of_msg args d t _ h1
    rw [hh]
    exact ⟨rfl, Or.inl ⟨unexpectedMsg, rfl, Or.inr (Or.inl rfl)⟩⟩
  · have hh := weather_handler_of_msg args d t _ h1
    rw [hh]
    exact ⟨rfl, Or.inl ⟨_, rfl, Or.inr (Or.inr rfl)⟩⟩

lemma get_weather_cod404 (city : Option String) :
    get_weather city (.resp 200 cod404Body) =
      .msg (invalidMsg (pyShowOptStr city)) := rfl

/-- Claim C5 (amended): the location is the argument words joined with
single spaces; an empty argument list substitutes the configured
default; with the default unset the pipeline still performs the fetch
and surfaces its outcome — no early rejection — but the location query
parameter it sends is the string "None" (Python's rendering of the
unset value), not the empty string. -/
theorem pipeline_location_resolution (args : List String) (d : Option String)
    (hne : args ≠ []) :
    weather_handler args d (.resp 200 cod404Body) =
      [Event.sendText (invalidMsg (String.intercalate " " args))] ∧
    weather_handler [] d (.resp 200 cod404Body) =
      [Event.sendText (invalidMsg (pyShowOptStr d))] ∧
    location_query_param (resolve_city [] none) = "None" := by
  refine ⟨?_, ?_, rfl⟩
  · cases args with
    | nil => exact absurd rfl hne
    | cons a as =>
      have hres : resolve_city (a :: as) d =
          some (String.intercalate " " (a :: as)) := by
        simp [resolve_city]
      refine weather_handler_of_msg _ _ _ _ ?_
      rw [hres]
      exact get_weather_cod404 (some (String.intercalate " " (a :: as)))
  · refine weather_handler_of_msg _ _ _ _ ?_
    have hres : resolve_city [] d = d := rfl
    rw [hres]
    exact get_weather_cod404 d

/-- Witness for C5 (amended): `/weather New York` against the cod-404
payload replies with the invalid-location text naming "New York", the
space-join of the two argument words. -/
theorem pipeline_location_resolution_witness :
    weather_handler ["New", "York"] none (.resp 200 cod404Body) =
      [Event.sendText (invalidMsg "New York")] := by
  have h := pipeline_location_resolution ["New", "York"] none
    (List.cons_ne_nil _ _)
  rw [show ("New York" : String) = String.intercalate " " ["New", "York"] from rfl]
  exact h.1

/-- Counterexample to C5 as stated: with no arguments and the default
location unset, the resolved city is Python `None`, and the location
query parameter embedded in the request URL is the string "None", not
the empty string. -/
theorem empty_args_unset_default_query_is_None :
    resolve_city [] none = none ∧
    location_query_param (resolve_city [] none) = "None" ∧
    ¬ location_query_param (resolve_city [] none) = "" := by
  refine ⟨rfl, rfl, ?_⟩
  intro h
  rw [show location_query_param (resolve_city [] none) = "None" from rfl] at h
  exact absurd h (by decide)

/-- Claim C7: for any well-formed result — any rational temperature,
humidity between 0 and 100 inclusive — `create_weather_graph` is
defined (the embedding is total: nothing raises) and its one write
targets the fixed chart path, with the two bar values taken verbatim
from the result. -/
theorem render_wellformed_total_single_write (city : Option String)
    (desc : String) (temp hum : ℚ) (_h0 : 0 ≤ hum) (_h1 : hum ≤ 100) :
    (create_weather_graph city ⟨desc, .num temp, .num hum⟩).1 = weatherPng ∧
    (create_weather_graph city ⟨desc, .num temp, .num hum⟩).2.values =
      [.num temp, .num hum] :=
  ⟨rfl, rfl⟩

/-- Witness for C7 at a negative temperature and the humidity boundary
value 0. -/
theorem render_wellformed_total_single_write_witness :
    (0 : ℚ) ≤ 0 ∧ (0 : ℚ) ≤ 100 ∧
    (create_weather_graph (some "Oslo") ⟨"Clear sky", .num (-5), .num 0⟩).1 =
      weatherPng :=
  ⟨le_refl 0, by norm_num,
   (render_wellformed_total_single_write (some "Oslo") "Clear sky" (-5) 0
      (le_refl 0) (by norm_num)).1⟩

/-- Claim C8: after two renders in sequence the fixed path holds
exactly the second chart (last-write-wins, not deleted), and every
other path is untouched. -/
theorem render_last_write_wins (fs : FileStore) (c1 c2 : Option String)
    (w1 w2 : WeatherInfo) :
    render_effect (render_effect fs c1 w1) c2 w2 weatherPng =
      some (create_weather_graph c2 w2).2 ∧
    (∀ p, ¬ p = weatherPng →
      render_effect (render_effect fs c1 w1) c2 w2 p = fs p) := by
  constructor
  · simp [render_effect, writeFile, create_weather_graph]
  · intro p hp
    simp [render_effect, writeFile, create_weather_graph, hp]

/-- Witness for C8: two concrete renders over the empty file system;
the fixed path holds the second chart and an unrelated path is still
absent. -/
theorem render_last_write_wins_witness :
    render_effect (render_effect (fun _ => none) (some "A") ⟨"Sunny", .num 1, .num 2⟩)
        (some "B") ⟨"Rainy", .num 3, .num 4⟩ weatherPng =
      some (create_weather_graph (some "B") ⟨"Rainy", .num 3, .num 4⟩).2 ∧
    render_effect (render_effect (fun _ => none) (some "A") ⟨"Sunny", .num 1, .num 2⟩)
        (some "B") ⟨"Rainy", .num 3, .num 4⟩ "other.png" = none := by
  have h := render_last_write_wins (fun _ => none) (some "A") (some "B")
    ⟨"Sunny", .num 1, .num 2⟩ ⟨"Rainy", .num 3, .num 4⟩
  exact ⟨h.1, h.2 "other.png" (by decide)⟩
